import Mathlib

/-!
Verification of the darezone-server check-in / hitch / challenge domain logic.

The HTTP handlers under `app/api/v1/` are embedded shallowly: the remote
relational store is a `Store` record of rows, each handler is a pure function
`Store → ... → Except HErr (Store × result)` mirroring the Python control flow
(validation order, error statuses and details, row updates).  The two stored
procedures (`create_checkin_with_streak_update`, `send_hitch_reminder`) are not
part of this repository; they are modelled from the specification's §4.2 / §4.3
algorithms and marked as such in their doc comments.
-/

/-- An HTTP error as raised by the handlers: status code plus detail string. -/
structure HErr where
  status : Nat
  detail : String
deriving DecidableEq, Repr

/-- A user's global profile row (`user_profiles` table aggregates). -/
structure UserProfile where
  id : String
  current_streak : Nat
  longest_streak : Nat
  total_check_ins : Nat
  points : Nat
deriving DecidableEq, Repr

/-- A `challenges` table row (fields used by the handlers under study). -/
structure Challenge where
  id : String
  name : String
  invite_code : String
  status : String
  member_count : Int
  created_by : String
deriving DecidableEq, Repr

/-- A `challenge_members` table row. -/
structure Member where
  id : String
  challenge_id : String
  user_id : String
  role : String
  status : String
  current_streak : Nat
  longest_streak : Nat
  total_checkins : Nat
  points_earned : Nat
  hitch_count : Nat
  left_at : Option Nat
deriving DecidableEq, Repr

/-- A `check_ins` table row.  Dates are day ordinals (`Nat`). -/
structure Checkin where
  id : String
  challenge_id : String
  habit_id : String
  user_id : String
  checkin_date : Nat
  status : String
  photo_url : Option String
  video_url : Option String
  caption : Option String
  updated_at : String
deriving DecidableEq, Repr

/-- A `friendships` table row (directed representation of the pair). -/
structure Friendship where
  id : String
  requester_id : String
  addressee_id : String
  status : String
deriving DecidableEq, Repr

/-- A hitch-reminder log entry, keyed by (sender, target, habit, challenge, day). -/
structure HitchLog where
  sender_id : String
  target_id : String
  habit_id : String
  challenge_id : String
  day : Nat
deriving DecidableEq, Repr

/-- The remote store: the only shared mutable state the handlers touch. -/
structure Store where
  challenges : List Challenge
  members : List Member
  check_ins : List Checkin
  friendships : List Friendship
  user_profiles : List UserProfile
  hitch_logs : List HitchLog
deriving DecidableEq, Repr

/-- Python falsiness of an `Optional[str]`: `None` and `""` are falsy. -/
def strBlank : Option String → Bool
  | none => true
  | some s => s.isEmpty

/-- First `challenge_members` row for (challenge_id, user_id), as the
`.eq(...).eq(...).single()` query returns. -/
def lookupMember (st : Store) (c u : String) : Option Member :=
  st.members.find? (fun m => m.challenge_id == c && m.user_id == u)

/-- First `challenges` row with the given id. -/
def lookupChallenge (st : Store) (c : String) : Option Challenge :=
  st.challenges.find? (fun ch => ch.id == c)

/-- First `check_ins` row with the given id. -/
def lookupCheckin (st : Store) (i : String) : Option Checkin :=
  st.check_ins.find? (fun k => k.id == i)

/-- The store an operation leaves behind: an error raised by a handler
short-circuits before (or atomically rolls back) any mutation, so an
error outcome leaves the store as it was. -/
def storeAfter {α : Type} (st : Store) (r : Except HErr (Store × α)) : Store :=
  match r with
  | .ok (st2, _) => st2
  | .error _ => st

/-- Whether a completed check-in already exists for (user, habit, challenge, today). -/
def hasDuplicateToday (st : Store) (c h u : String) (today : Nat) : Bool :=
  st.check_ins.any (fun k =>
    k.challenge_id == c && k.habit_id == h && k.user_id == u &&
    k.checkin_date == today && k.status == "completed")

/-- The user's most recent check-in date for this habit/challenge, if any. -/
def lastCheckinDate (st : Store) (c h u : String) : Option Nat :=
  st.check_ins.foldr
    (fun k acc =>
      if k.challenge_id == c && k.habit_id == h && k.user_id == u then
        match acc with
        | none => some k.checkin_date
        | some d => some (max d k.checkin_date)
      else acc)
    none

/-- Errors the modelled `create_checkin_with_streak_update` procedure raises;
the handler recognises them by message substring. -/
inductive RpcErr where
  | alreadyExists
  | notActiveMember
deriving DecidableEq, Repr

/-- Result row of the modelled `create_checkin_with_streak_update` procedure. -/
structure RpcResult where
  checkin_id : String
  new_streak : Nat
  points_earned : Nat
  is_streak_broken : Bool
deriving DecidableEq, Repr

/-- Modelled from the spec: the stored procedure
`create_checkin_with_streak_update` lives outside this repository (src only
calls it).  Per §4.2: (preconditions) caller is an active member, else a
"not an active member" failure; (1) reject if a completed check-in already
exists for (user, habit, challenge, today); (2) gap of exactly one day from
the last check-in continues the streak (`old + 1`), gap zero is treated as
continuation, a larger gap resets to 1 with `is_streak_broken = true`, and a
first-ever check-in starts at 1 unbroken; (3) points are 10 base, 20 when the
streak continued (not broken and not the first); (4) persist the row and
update member stats (`longest = max longest new`, `total += 1`,
`points += pts`), mirroring onto the user profile. -/
def create_checkin_with_streak_update (st : Store) (c h u : String)
    (photo video caption : Option String) (today : Nat) (newId : String) :
    Except RpcErr (Store × RpcResult) :=
  match lookupMember st c u with
  | none => .error .notActiveMember
  | some m =>
    if m.status ≠ "active" then .error .notActiveMember
    else if hasDuplicateToday st c h u today then .error .alreadyExists
    else
      let stream :=
        match lastCheckinDate st c h u with
        | none => (1, false, true)
        | some d =>
          let gap := today - d
          if gap == 1 then (m.current_streak + 1, false, false)
          else if gap == 0 then (m.current_streak + 1, false, false)
          else (1, true, false)
      let ns := stream.1
      let broken := stream.2.1
      let first := stream.2.2
      let pts := if broken || first then 10 else 20
      let newCk : Checkin :=
        { id := newId, challenge_id := c, habit_id := h, user_id := u,
          checkin_date := today, status := "completed",
          photo_url := photo, video_url := video, caption := caption,
          updated_at := "" }
      let st2 : Store :=
        { st with
          check_ins := newCk :: st.check_ins,
          members := st.members.map (fun mm =>
            if mm.challenge_id == c && mm.user_id == u then
              { mm with
                current_streak := ns,
                longest_streak := max mm.longest_streak ns,
                total_checkins := mm.total_checkins + 1,
                points_earned := mm.points_earned + pts }
            else mm),
          user_profiles := st.user_profiles.map (fun p =>
            if p.id == u then
              { p with
                current_streak := ns,
                longest_streak := max p.longest_streak ns,
                total_check_ins := p.total_check_ins + 1,
                points := p.points + pts }
            else p) }
      .ok (st2, { checkin_id := newId, new_streak := ns,
                  points_earned := pts, is_streak_broken := broken })

/-- `POST /checkins` request body (`CheckinCreate` schema). -/
structure CheckinCreate where
  challenge_id : String
  habit_id : String
  caption : Option String
  photo_url : Option String
  video_url : Option String
deriving DecidableEq, Repr

/-- Response of `POST /checkins` (`CheckinCreateResponse` schema). -/
structure CheckinCreateResponse where
  checkin : Checkin
  new_streak : Nat
  points_earned : Nat
  is_streak_broken : Bool
  message : String
deriving DecidableEq, Repr

/-- The `POST /checkins` handler `create_checkin`: validates the evidence,
invokes the stored procedure, maps its failures to HTTP errors, re-fetches
the created row and builds the response. -/
def create_checkin (st : Store) (uid : String) (req : CheckinCreate)
    (today : Nat) (newId : String) :
    Except HErr (Store × CheckinCreateResponse) :=
  if strBlank req.photo_url && strBlank req.video_url && strBlank req.caption then
    .error { status := 400,
             detail := "At least one evidence (photo/video/caption) required" }
  else
    match create_checkin_with_streak_update st req.challenge_id req.habit_id uid
        req.photo_url req.video_url req.caption today newId with
    | .error .alreadyExists =>
      .error { status := 400,
               detail := "You already checked in for this habit today" }
    | .error .notActiveMember =>
      .error { status := 403, detail := "You are not a member of this challenge" }
    | .ok (st2, r) =>
      match lookupCheckin st2 r.checkin_id with
      | none =>
        .error { status := 500,
                 detail := "Check-in created but failed to retrieve" }
      | some ck =>
        let message :=
          "Check-in successful! " ++
          (if r.is_streak_broken then "Your streak was reset. "
           else "Current streak: " ++ toString r.new_streak ++ " days! ") ++
          "Earned " ++ toString r.points_earned ++ " points."
        .ok (st2,
          { checkin := ck, new_streak := r.new_streak,
            points_earned := r.points_earned,
            is_streak_broken := r.is_streak_broken, message := message })

/-- Projection used to state streak claims: the (new_streak, is_streak_broken)
pair of a successful `create_checkin` outcome. -/
def createdStreak (r : Except HErr (Store × CheckinCreateResponse)) :
    Option (Nat × Bool) :=
  match r with
  | .ok (_, resp) => some (resp.new_streak, resp.is_streak_broken)
  | .error _ => none

/-- Errors the modelled `send_hitch_reminder` procedure raises. -/
inductive HitchRpcErr where
  | noHitchesRemaining
  | notActiveMember
  | noValidTargets
deriving DecidableEq, Repr

/-- Whether this (sender, target, habit, challenge, day) key already has a
reminder recorded today. -/
def hitchAlreadySent (st : Store) (sender target h c : String) (today : Nat) : Bool :=
  st.hitch_logs.any (fun l =>
    l.sender_id == sender && l.target_id == target &&
    l.habit_id == h && l.challenge_id == c && l.day == today)

/-- Modelled from the spec: the stored procedure `send_hitch_reminder` lives
outside this repository (src only calls it).  Per §4.3: (preconditions, in
order) the sender is an active member with `hitch_count > 0`, else
NoHitchesRemaining; targets that do not resolve to active members of the same
challenge, or that already received a reminder for this key today, are
silently skipped; if no target is left the call fails with NoValidTargets;
otherwise one log entry per remaining target is recorded and the sender's
`hitch_count` is decremented by exactly 1 for the whole batch; the call
returns (hitches_sent, remaining_hitches). -/
def send_hitch_reminder (st : Store) (c h sender : String)
    (targets : List String) (today : Nat) :
    Except HitchRpcErr (Store × Nat × Nat) :=
  match lookupMember st c sender with
  | none => .error .notActiveMember
  | some m =>
    if m.status ≠ "active" then .error .notActiveMember
    else if m.hitch_count == 0 then .error .noHitchesRemaining
    else
      let valid := targets.filter (fun t =>
        (match lookupMember st c t with
         | some tm => tm.status == "active"
         | none => false) && !(hitchAlreadySent st sender t h c today))
      if valid.isEmpty then .error .noValidTargets
      else
        let st2 : Store :=
          { st with
            hitch_logs :=
              (valid.map (fun t =>
                { sender_id := sender, target_id := t, habit_id := h,
                  challenge_id := c, day := today : HitchLog })) ++ st.hitch_logs,
            members := st.members.map (fun mm =>
              if mm.challenge_id == c && mm.user_id == sender then
                { mm with hitch_count := mm.hitch_count - 1 }
              else mm) }
        .ok (st2, valid.length, m.hitch_count - 1)

/-- Response of `POST /hitch` (`HitchResponse` schema, message field omitted
from the claims and kept as built by the handler). -/
structure HitchResponse where
  success : Bool
  hitches_sent : Nat
  remaining_hitches : Nat
deriving DecidableEq, Repr

/-- The `POST /hitch` handler `send_hitch`: invokes the stored procedure and
maps its failure messages to HTTP errors (400 no hitches remaining, 403 not a
member, 400 no valid targets). -/
def send_hitch (st : Store) (sender : String) (c h : String)
    (targets : List String) (today : Nat) :
    Except HErr (Store × HitchResponse) :=
  match send_hitch_reminder st c h sender targets today with
  | .error .noHitchesRemaining =>
    .error { status := 400, detail := "No hitches remaining" }
  | .error .notActiveMember =>
    .error { status := 403, detail := "Not a member" }
  | .error .noValidTargets =>
    .error { status := 400, detail := "No valid targets" }
  | .ok (st2, sent, remaining) =>
    .ok (st2, { success := true, hitches_sent := sent,
                remaining_hitches := remaining })

/-- The `update(...).eq("id", member_id)` call of `leave_challenge`: set the
matching membership rows to status `left` with a `left_at` stamp. -/
def markLeft (st : Store) (memberId : String) (nowT : Nat) : Store :=
  { st with members := st.members.map (fun mm =>
      if mm.id == memberId then { mm with status := "left", left_at := some nowT }
      else mm) }

/-- The `update({"member_count": new_count}).eq("id", challenge_id)` call of
`leave_challenge`. -/
def setMemberCount (st : Store) (c : String) (newCount : Int) : Store :=
  { st with challenges := st.challenges.map (fun ch =>
      if ch.id == c then { ch with member_count := newCount } else ch) }

/-- The `POST /challenges/{id}/leave` handler `leave_challenge`: fetches the
caller's membership, rejects creators (400) and already-left members (400),
marks the membership `left`, then decrements the challenge's `member_count`
floored at 0 (when the challenge row is found). -/
def leave_challenge (st : Store) (uid c : String) (nowT : Nat) :
    Except HErr Store :=
  match lookupMember st c uid with
  | none => .error { status := 404, detail := "Not a member of this challenge" }
  | some m =>
    if m.role == "creator" then
      .error { status := 400,
               detail := "Creator cannot leave challenge. Delete the challenge instead." }
    else if m.status == "left" then
      .error { status := 400, detail := "Already left this challenge" }
    else
      let st1 := markLeft st m.id nowT
      match lookupChallenge st1 c with
      | none => .ok st1
      | some chal => .ok (setMemberCount st1 c (max 0 (chal.member_count - 1)))

/-- The invite-code alphabet exactly as built by the source: uppercase letters
plus digits with each of the confusing "0", "O", "I", "1" removed (the
source's chained single-character `replace`s, rendered as a filter). -/
def inviteChars : List Char :=
  ("ABCDEFGHIJKLMNOPQRSTUVWXYZ" ++ "0123456789").data.filter
    (fun ch => !(ch == '0' || ch == 'O' || ch == 'I' || ch == '1'))

/-- One `random.choices(chars, k=6)` draw, with the randomness supplied as a
choice function `pick` giving, for attempt `i` and position `j`, an index into
the alphabet (reduced mod its size, as a uniform draw from the list is always
an element of the list). -/
def codeAt (pick : Nat → Nat → Nat) (i : Nat) : String :=
  String.mk ((List.range 6).map (fun j =>
    inviteChars.getD (pick i j % inviteChars.length) 'A'))

/-- The retry loop of `generate_unique_invite_code`: draw a code, return it if
no challenge row carries it as `invite_code`, retry otherwise; after the
attempts are exhausted fail with 500. -/
def genLoop (existing : List String) (pick : Nat → Nat → Nat) :
    Nat → Nat → Except HErr String
  | _, 0 => .error { status := 500, detail := "Failed to generate unique invite code" }
  | i, fuel + 1 =>
    let code := codeAt pick i
    if existing.contains code then genLoop existing pick (i + 1) fuel
    else .ok code

/-- The helper `generate_unique_invite_code`: the uniqueness probe selects
`challenges` rows with the candidate `invite_code` (any status). -/
def generate_unique_invite_code (st : Store) (pick : Nat → Nat → Nat)
    (max_attempts : Nat) : Except HErr String :=
  genLoop (st.challenges.map (fun ch => ch.invite_code)) pick 0 max_attempts

/-- The `friendships` rows linking the two users, in either direction, in
store order (the `.or_(...)` query of `remove_friend`). -/
def pairRows (st : Store) (a b : String) : List Friendship :=
  st.friendships.filter (fun f =>
    (f.requester_id == a && f.addressee_id == b) ||
    (f.requester_id == b && f.addressee_id == a))

/-- The `DELETE /friends/{user_id}` handler `remove_friend`: rejects removing
oneself (400), finds the friendship in either direction (404 when none), and
deletes the first matching row by id. -/
def remove_friend (st : Store) (cu target : String) :
    Except HErr (Store × Unit) :=
  if cu == target then
    .error { status := 400, detail := "Cannot remove yourself as a friend" }
  else
    match pairRows st cu target with
    | [] => .error { status := 404, detail := "Friendship not found" }
    | f :: _ =>
      .ok ({ st with friendships :=
               st.friendships.filter (fun g => !(g.id == f.id)) }, ())

/-- `PATCH /checkins/{id}` request body (`CheckinUpdate` schema: caption only). -/
structure CheckinUpdate where
  caption : Option String
deriving DecidableEq, Repr

/-- The update dict the handler builds: the caption entry when one was
provided, and always an `updated_at` entry. -/
def updateData (upd : CheckinUpdate) : List (String × String) :=
  (match upd.caption with
   | some cap => [("caption", cap)]
   | none => []) ++ [("updated_at", "NOW()")]

/-- Applying the handler's update dict to a `check_ins` row. -/
def applyCheckinUpdate (upd : CheckinUpdate) (k : Checkin) : Checkin :=
  { k with
    caption := (match upd.caption with
                | some cap => some cap
                | none => k.caption),
    updated_at := "NOW()" }

/-- The `PATCH /checkins/{id}` handler `update_checkin`: 404 when the row is
missing, 403 when the caller is not the owner, 400 when the row is not from
today, then builds the update dict (caption if provided, plus `updated_at`),
rejects with 400 when that dict is empty, and applies it. -/
def update_checkin (st : Store) (uid checkin_id : String)
    (upd : CheckinUpdate) (today : Nat) :
    Except HErr (Store × Checkin) :=
  match lookupCheckin st checkin_id with
  | none => .error { status := 404, detail := "Check-in not found" }
  | some ck =>
    if ck.user_id ≠ uid then
      .error { status := 403, detail := "Not your check-in" }
    else if ck.checkin_date ≠ today then
      .error { status := 400, detail := "Can only edit check-ins from today" }
    else if (updateData upd).isEmpty then
      .error { status := 400, detail := "No fields to update provided" }
    else
      .ok ({ st with check_ins := st.check_ins.map (fun k =>
               if k.id == checkin_id then applyCheckinUpdate upd k else k) },
           applyCheckinUpdate upd ck)

/-- The `DELETE /checkins/{id}` handler `delete_checkin`: 404 when the row is
missing, 403 when the caller is not the owner, then deletes the row; no
streak/points bookkeeping is touched (the source leaves that as a TODO). -/
def delete_checkin (st : Store) (uid checkin_id : String) :
    Except HErr (Store × Unit) :=
  match lookupCheckin st checkin_id with
  | none => .error { status := 404, detail := "Check-in not found" }
  | some ck =>
    if ck.user_id ≠ uid then
      .error { status := 403, detail := "Not your check-in" }
    else
      .ok ({ st with check_ins :=
               st.check_ins.filter (fun k => !(k.id == checkin_id)) }, ())

/-- The HTTP status an operation outcome carries, if it failed. -/
def statusOf {α : Type} : Except HErr (Store × α) → Option Nat
  | .error e => some e.status
  | .ok _ => none

/-- A concrete store used to instantiate the theorems: one active challenge
"c1" created by "u1", an active creator membership, an active member "u2"
with a 3-day streak and one completed check-in on day 5, an active member
"u3" with no hitches left, and one accepted friendship between u1 and u2. -/
def exSt : Store :=
  { challenges := [⟨"c1", "Dare", "ZZZZZZ", "active", 2, "u1"⟩],
    members :=
      [⟨"m1", "c1", "u1", "creator", "active", 0, 0, 0, 0, 2, none⟩,
       ⟨"m2", "c1", "u2", "member", "active", 3, 3, 3, 30, 2, none⟩,
       ⟨"m3", "c1", "u3", "member", "active", 0, 0, 0, 0, 0, none⟩],
    check_ins := [⟨"k1", "c1", "h1", "u2", 5, "completed", none, none, some "did it", ""⟩],
    friendships := [⟨"f1", "u1", "u2", "accepted"⟩],
    user_profiles := [⟨"u1", 0, 0, 0, 0⟩, ⟨"u2", 3, 3, 3, 30⟩],
    hitch_logs := [] }

/-- C3: a create_checkin call whose evidence has photo_url, video_url and
caption all empty is rejected with BadRequest before any store operation
(the outcome carries no mutated store, so the store is unchanged); when at
least one of the three is non-empty this validation never produces that
rejection. -/
theorem create_checkin_evidence_gate (st : Store) (uid : String)
    (req : CheckinCreate) (today : Nat) (newId : String) :
    ((strBlank req.photo_url && strBlank req.video_url && strBlank req.caption) = true →
      create_checkin st uid req today newId =
        .error { status := 400,
                 detail := "At least one evidence (photo/video/caption) required" } ∧
      storeAfter st (create_checkin st uid req today newId) = st) ∧
    ((strBlank req.photo_url && strBlank req.video_url && strBlank req.caption) = false →
      create_checkin st uid req today newId ≠
        .error { status := 400,
                 detail := "At least one evidence (photo/video/caption) required" }) := by
  constructor
  · intro h
    constructor
    · simp [create_checkin, h]
    · simp [create_checkin, h, storeAfter]
  · intro h
    cases hr : create_checkin_with_streak_update st req.challenge_id req.habit_id uid
        req.photo_url req.video_url req.caption today newId with
    | error e =>
      cases e <;> simp [create_checkin, h, hr]
    | ok p =>
      obtain ⟨st2, r⟩ := p
      cases hl : lookupCheckin st2 r.checkin_id with
      | none => simp [create_checkin, h, hr, hl]
      | some ck => simp [create_checkin, h, hr, hl]

theorem create_checkin_evidence_gate_witness :
    (create_checkin exSt "u2"
        { challenge_id := "c1", habit_id := "h1", caption := none,
          photo_url := none, video_url := none } 6 "k2" =
      .error { status := 400,
               detail := "At least one evidence (photo/video/caption) required" } ∧
    storeAfter exSt (create_checkin exSt "u2"
        { challenge_id := "c1", habit_id := "h1", caption := none,
          photo_url := none, video_url := none } 6 "k2") = exSt) :=
  (create_checkin_evidence_gate exSt "u2"
      { challenge_id := "c1", habit_id := "h1", caption := none,
        photo_url := none, video_url := none } 6 "k2").1 rfl

/-- C4: a send_hitch call by a sender whose hitch_count is 0 fails with the
400 "No hitches remaining" error, for every list of 1 to 10 targets,
whatever their validity. -/
theorem send_hitch_no_hitches_remaining (st : Store) (c h sender : String)
    (targets : List String) (today : Nat) (m : Member)
    (hm : lookupMember st c sender = some m)
    (hstat : m.status = "active")
    (hzero : m.hitch_count = 0)
    (_hlen1 : 1 ≤ targets.length) (_hlen2 : targets.length ≤ 10) :
    send_hitch st sender c h targets today =
      .error { status := 400, detail := "No hitches remaining" } := by
  simp [send_hitch, send_hitch_reminder, hm, hstat, hzero]

theorem send_hitch_no_hitches_remaining_witness :
    send_hitch exSt "u3" "c1" "h1" ["u2"] 6 =
      .error { status := 400, detail := "No hitches remaining" } :=
  send_hitch_no_hitches_remaining exSt "c1" "h1" "u3" ["u2"] 6
    ⟨"m3", "c1", "u3", "member", "active", 0, 0, 0, 0, 0, none⟩
    (by decide) rfl rfl (by decide) (by decide)

/-- C8: at the failing input — the owner PATCHes today's check-in with an
empty payload (no caption) — the handler does not reject with BadRequest:
the `updated_at` entry is inserted into the update dict before the emptiness
check, which is therefore dead, and the stored row is modified. -/
theorem update_checkin_empty_payload_accepted :
    statusOf (update_checkin exSt "u2" "k1" { caption := none } 5) = none ∧
    lookupCheckin (storeAfter exSt (update_checkin exSt "u2" "k1" { caption := none } 5))
        "k1" ≠ lookupCheckin exSt "k1" := by
  decide

/-- C9: a successful owner delete of a check-in removes only that row: the
members table (hence every member's current_streak, longest_streak,
total_checkins, points_earned and hitch allowance) and the user_profiles
table (the mirrored aggregates) are untouched, as is the challenges table. -/
theorem delete_checkin_preserves_stats (st : Store) (uid i : String)
    (ck : Checkin)
    (hl : lookupCheckin st i = some ck) (hown : ck.user_id = uid) :
    delete_checkin st uid i =
      .ok ({ st with check_ins := st.check_ins.filter (fun k => !(k.id == i)) }, ()) ∧
    (storeAfter st (delete_checkin st uid i)).members = st.members ∧
    (storeAfter st (delete_checkin st uid i)).user_profiles = st.user_profiles ∧
    (storeAfter st (delete_checkin st uid i)).challenges = st.challenges := by
  have h1 : delete_checkin st uid i =
      .ok ({ st with check_ins := st.check_ins.filter (fun k => !(k.id == i)) }, ()) := by
    simp [delete_checkin, hl, hown]
  exact ⟨h1, by simp [storeAfter, h1], by simp [storeAfter, h1], by simp [storeAfter, h1]⟩

theorem delete_checkin_preserves_stats_witness :
    delete_checkin exSt "u2" "k1" =
      .ok ({ exSt with check_ins := exSt.check_ins.filter (fun k => !(k.id == "k1")) }, ()) ∧
    (storeAfter exSt (delete_checkin exSt "u2" "k1")).members = exSt.members ∧
    (storeAfter exSt (delete_checkin exSt "u2" "k1")).user_profiles = exSt.user_profiles ∧
    (storeAfter exSt (delete_checkin exSt "u2" "k1")).challenges = exSt.challenges :=
  delete_checkin_preserves_stats exSt "u2" "k1"
    ⟨"k1", "c1", "h1", "u2", 5, "completed", none, none, some "did it", ""⟩
    (by decide) rfl

/-- C10: a PATCH or DELETE on an existing check-in by a caller who is not its
owner yields 403 Forbidden, for every payload and every value of today — the
ownership check precedes the same-day rule, so a non-owner never sees the
other-day BadRequest. -/
theorem checkin_non_owner_forbidden (st : Store) (caller i : String)
    (ck : Checkin)
    (hl : lookupCheckin st i = some ck) (hown : ck.user_id ≠ caller) :
    (∀ (upd : CheckinUpdate) (today : Nat),
      update_checkin st caller i upd today =
        .error { status := 403, detail := "Not your check-in" }) ∧
    delete_checkin st caller i =
      .error { status := 403, detail := "Not your check-in" } := by
  constructor
  · intro upd today
    simp [update_checkin, hl, hown]
  · simp [delete_checkin, hl, hown]

theorem checkin_non_owner_forbidden_witness :
    update_checkin exSt "u1" "k1" { caption := some "mine now" } 9 =
      .error { status := 403, detail := "Not your check-in" } ∧
    delete_checkin exSt "u1" "k1" =
      .error { status := 403, detail := "Not your check-in" } :=
  ⟨(checkin_non_owner_forbidden exSt "u1" "k1"
      ⟨"k1", "c1", "h1", "u2", 5, "completed", none, none, some "did it", ""⟩
      (by decide) (by decide)).1 { caption := some "mine now" } 9,
   (checkin_non_owner_forbidden exSt "u1" "k1"
      ⟨"k1", "c1", "h1", "u2", 5, "completed", none, none, some "did it", ""⟩
      (by decide) (by decide)).2⟩

/-- C1: when the caller's most recent check-in for this habit/challenge was
exactly one day before today, a successful create_checkin returns the old
streak plus 1 with is_streak_broken false; when the gap is two or more days,
it returns streak 1 with is_streak_broken true. -/
theorem create_checkin_streak_continuity (st : Store) (uid : String)
    (req : CheckinCreate) (today : Nat) (newId : String) (m : Member) (d : Nat)
    (hEv : (strBlank req.photo_url && strBlank req.video_url && strBlank req.caption) = false)
    (hm : lookupMember st req.challenge_id uid = some m)
    (hstat : m.status = "active")
    (hdup : hasDuplicateToday st req.challenge_id req.habit_id uid today = false)
    (hlast : lastCheckinDate st req.challenge_id req.habit_id uid = some d) :
    (today = d + 1 →
      createdStreak (create_checkin st uid req today newId) =
        some (m.current_streak + 1, false)) ∧
    (d + 2 ≤ today →
      createdStreak (create_checkin st uid req today newId) = some (1, true)) := by
  constructor
  · intro hgap
    subst hgap
    have hg : d + 1 - d = 1 := by omega
    simp [create_checkin, hEv, create_checkin_with_streak_update, hm, hstat, hdup,
      hlast, hg, lookupCheckin, List.find?, createdStreak]
  · intro hgap
    have hg1 : today - d ≠ 1 := by omega
    have hg0 : today - d ≠ 0 := by omega
    simp [create_checkin, hEv, create_checkin_with_streak_update, hm, hstat, hdup,
      hlast, beq_iff_eq, hg1, hg0, lookupCheckin, List.find?, createdStreak]

theorem create_checkin_streak_continuity_witness :
    createdStreak (create_checkin exSt "u2"
        { challenge_id := "c1", habit_id := "h1", caption := some "again",
          photo_url := none, video_url := none } 6 "k2") = some (4, false) :=
  (create_checkin_streak_continuity exSt "u2"
      { challenge_id := "c1", habit_id := "h1", caption := some "again",
        photo_url := none, video_url := none } 6 "k2"
      ⟨"m2", "c1", "u2", "member", "active", 3, 3, 3, 30, 2, none⟩ 5
      rfl (by decide) rfl (by decide) (by decide)).1 rfl

/-- C2 counterexample to the claim as stated: at a concrete store where a
completed check-in already exists for (u2, h1, c1, day 5), the duplicate
create_checkin call fails with HTTP status 400 (BadRequest), not 409
(Conflict). -/
theorem create_checkin_duplicate_not_conflict :
    statusOf (create_checkin exSt "u2"
        { challenge_id := "c1", habit_id := "h1", caption := some "again",
          photo_url := none, video_url := none } 5 "k2") = some 400 ∧
    statusOf (create_checkin exSt "u2"
        { challenge_id := "c1", habit_id := "h1", caption := some "again",
          photo_url := none, video_url := none } 5 "k2") ≠ some 409 := by
  decide

/-- C2 (amended): a create_checkin call with valid evidence by an active
member, when a completed check-in already exists for the same (user, habit,
challenge, today), fails with HTTP 400 BadRequest ("You already checked in
for this habit today") and no second check-in row is created (the store is
unchanged). -/
theorem create_checkin_duplicate_badrequest (st : Store) (uid : String)
    (req : CheckinCreate) (today : Nat) (newId : String) (m : Member)
    (hEv : (strBlank req.photo_url && strBlank req.video_url && strBlank req.caption) = false)
    (hm : lookupMember st req.challenge_id uid = some m)
    (hstat : m.status = "active")
    (hdup : hasDuplicateToday st req.challenge_id req.habit_id uid today = true) :
    create_checkin st uid req today newId =
      .error { status := 400, detail := "You already checked in for this habit today" } ∧
    storeAfter st (create_checkin st uid req today newId) = st := by
  have h1 : create_checkin st uid req today newId =
      .error { status := 400, detail := "You already checked in for this habit today" } := by
    simp [create_checkin, hEv, create_checkin_with_streak_update, hm, hstat, hdup]
  exact ⟨h1, by simp [storeAfter, h1]⟩

theorem create_checkin_duplicate_badrequest_witness :
    create_checkin exSt "u2"
        { challenge_id := "c1", habit_id := "h1", caption := some "again",
          photo_url := none, video_url := none } 5 "k2" =
      .error { status := 400, detail := "You already checked in for this habit today" } ∧
    storeAfter exSt (create_checkin exSt "u2"
        { challenge_id := "c1", habit_id := "h1", caption := some "again",
          photo_url := none, video_url := none } 5 "k2") = exSt :=
  create_checkin_duplicate_badrequest exSt "u2"
    { challenge_id := "c1", habit_id := "h1", caption := some "again",
      photo_url := none, video_url := none } 5 "k2"
    ⟨"m2", "c1", "u2", "member", "active", 3, 3, 3, 30, 2, none⟩
    rfl (by decide) rfl (by decide)

/-- `find?` after a row update keyed by a condition `q`: when the updater `g`
does not change the fields the search predicate `p` reads, the first match is
the (possibly updated) former first match. -/
theorem find_map_ite {α : Type} (p q : α → Bool) (g : α → α)
    (hg : ∀ x, p (g x) = p x) :
    ∀ (l : List α) (a : α), l.find? p = some a →
      (l.map (fun x => if q x then g x else x)).find? p =
        some (if q a then g a else a) := by
  intro l
  induction l with
  | nil => intro a ha; simp at ha
  | cons x xs ih =>
    intro a ha
    by_cases hp : p x = true
    · rw [List.find?_cons_of_pos _ hp] at ha
      injection ha with h1
      subst h1
      have hph : p (if q x then g x else x) = true := by
        by_cases hq : q x = true <;> simp [hq, hg, hp]
      rw [List.map_cons, List.find?_cons_of_pos _ hph]
    · have hph : ¬ p (if q x then g x else x) = true := by
        by_cases hq : q x = true <;> simp [hq, hg] <;> simp_all
      rw [List.find?_cons_of_neg _ hp] at ha
      rw [List.map_cons, List.find?_cons_of_neg _ hph]
      exact ih a ha

/-- C5: leaving as the creator always fails with 400; leaving as an active
non-creator marks the membership `left` and sets the challenge's
member_count to `max 0 (member_count - 1)` — a decrement floored at 0 — and
a second leave call by the same user then fails with 400 "already left". -/
theorem leave_challenge_rules (st : Store) (uid c : String) (t t2 : Nat)
    (m : Member) (chal : Challenge)
    (hm : lookupMember st c uid = some m) :
    (m.role = "creator" →
      leave_challenge st uid c t =
        .error { status := 400,
                 detail := "Creator cannot leave challenge. Delete the challenge instead." }) ∧
    (m.role ≠ "creator" → m.status = "active" → lookupChallenge st c = some chal →
      leave_challenge st uid c t =
        .ok (setMemberCount (markLeft st m.id t) c (max 0 (chal.member_count - 1))) ∧
      lookupMember (setMemberCount (markLeft st m.id t) c (max 0 (chal.member_count - 1))) c uid =
        some { m with status := "left", left_at := some t } ∧
      lookupChallenge (setMemberCount (markLeft st m.id t) c (max 0 (chal.member_count - 1))) c =
        some { chal with member_count := max 0 (chal.member_count - 1) } ∧
      (0 : Int) ≤ max 0 (chal.member_count - 1) ∧
      leave_challenge (setMemberCount (markLeft st m.id t) c (max 0 (chal.member_count - 1))) uid c t2 =
        .error { status := 400, detail := "Already left this challenge" }) := by
  constructor
  · intro hrole
    simp [leave_challenge, hm, hrole]
  · intro hrole hstat hchal
    have hrb : (m.role == "creator") = false := by simp [hrole]
    have hsb : (m.status == "left") = false := by simp [hstat]
    have hlc1 : lookupChallenge (markLeft st m.id t) c = some chal := by
      simpa [lookupChallenge, markLeft] using hchal
    have h1 : leave_challenge st uid c t =
        .ok (setMemberCount (markLeft st m.id t) c (max 0 (chal.member_count - 1))) := by
      simp [leave_challenge, hm, hrb, hsb, hlc1]
    have hlm2 : lookupMember
        (setMemberCount (markLeft st m.id t) c (max 0 (chal.member_count - 1))) c uid =
        some { m with status := "left", left_at := some t } := by
      have h2 := find_map_ite (fun mm : Member => mm.challenge_id == c && mm.user_id == uid)
          (fun mm => mm.id == m.id)
          (fun mm => { mm with status := "left", left_at := some t })
          (fun _ => rfl) st.members m hm
      simpa [lookupMember, markLeft, setMemberCount] using h2
    have hchal2 : st.challenges.find? (fun ch => ch.id == c) = some chal := hchal
    have hq : (chal.id == c) = true := by
      have h4 := List.find?_some hchal2
      simpa using h4
    have hlc2 : lookupChallenge
        (setMemberCount (markLeft st m.id t) c (max 0 (chal.member_count - 1))) c =
        some { chal with member_count := max 0 (chal.member_count - 1) } := by
      have h2 := find_map_ite (fun ch : Challenge => ch.id == c) (fun ch => ch.id == c)
          (fun ch => { ch with member_count := max 0 (chal.member_count - 1) })
          (fun _ => rfl) st.challenges chal hchal
      simpa [lookupChallenge, markLeft, setMemberCount, hq] using h2
    have h3 : leave_challenge
        (setMemberCount (markLeft st m.id t) c (max 0 (chal.member_count - 1))) uid c t2 =
        .error { status := 400, detail := "Already left this challenge" } := by
      simp [leave_challenge, hlm2, hrb]
    exact ⟨h1, hlm2, hlc2, le_max_left 0 _, h3⟩

theorem leave_challenge_rules_witness :
    (leave_challenge exSt "u2" "c1" 7 =
      .ok (setMemberCount (markLeft exSt "m2" 7) "c1" (max 0 (2 - 1))) ∧
    lookupMember (setMemberCount (markLeft exSt "m2" 7) "c1" (max 0 (2 - 1))) "c1" "u2" =
      some ⟨"m2", "c1", "u2", "member", "left", 3, 3, 3, 30, 2, some 7⟩ ∧
    lookupChallenge (setMemberCount (markLeft exSt "m2" 7) "c1" (max 0 (2 - 1))) "c1" =
      some ⟨"c1", "Dare", "ZZZZZZ", "active", max 0 (2 - 1), "u1"⟩ ∧
    (0 : Int) ≤ max 0 (2 - 1) ∧
    leave_challenge (setMemberCount (markLeft exSt "m2" 7) "c1" (max 0 (2 - 1))) "u2" "c1" 8 =
      .error { status := 400, detail := "Already left this challenge" }) :=
  (leave_challenge_rules exSt "u2" "c1" 7 8
      ⟨"m2", "c1", "u2", "member", "active", 3, 3, 3, 30, 2, none⟩
      ⟨"c1", "Dare", "ZZZZZZ", "active", 2, "u1"⟩
      (by decide)).2 (by decide) rfl (by decide)

/-- A copy of the example store holding no friendship rows, for the 404 leg. -/
def exStNoFriends : Store := { exSt with friendships := [] }

/-- C7: with exactly one friendship row between the pair (in either
direction) and row ids unique, a remove_friend call by either party succeeds
and deletes exactly that row (it is gone, every other row survives); when no
row exists for the pair the call returns 404 and leaves the store unchanged. -/
theorem remove_friend_symmetric (st st2 : Store) (a b : String) (f : Friendship)
    (hab : a ≠ b)
    (hrow : pairRows st a b = [f])
    (huniq : ∀ g ∈ st.friendships, g.id = f.id → g = f) :
    remove_friend st a b =
      .ok ({ st with friendships := st.friendships.filter (fun g => !(g.id == f.id)) }, ()) ∧
    remove_friend st b a =
      .ok ({ st with friendships := st.friendships.filter (fun g => !(g.id == f.id)) }, ()) ∧
    f ∉ st.friendships.filter (fun g => !(g.id == f.id)) ∧
    (∀ g ∈ st.friendships, g ≠ f →
      g ∈ st.friendships.filter (fun g2 => !(g2.id == f.id))) ∧
    (pairRows st2 a b = [] →
      remove_friend st2 a b = .error { status := 404, detail := "Friendship not found" } ∧
      storeAfter st2 (remove_friend st2 a b) = st2) := by
  have hba : b ≠ a := Ne.symm hab
  have hsymm : pairRows st b a = pairRows st a b := by
    unfold pairRows
    apply List.filter_congr
    intro x _
    exact Bool.or_comm _ _
  refine ⟨?_, ?_, ?_, ?_, ?_⟩
  · simp [remove_friend, hab, hrow]
  · simp [remove_friend, hba, hsymm, hrow]
  · simp [List.mem_filter]
  · intro g hg hne
    rw [List.mem_filter]
    refine ⟨hg, ?_⟩
    by_cases hid : g.id = f.id
    · exact absurd (huniq g hg hid) hne
    · simp [hid]
  · intro hempty
    have h4 : remove_friend st2 a b =
        .error { status := 404, detail := "Friendship not found" } := by
      simp [remove_friend, hab, hempty]
    exact ⟨h4, by simp [storeAfter, h4]⟩

theorem remove_friend_symmetric_witness :
    (remove_friend exSt "u1" "u2" =
      .ok ({ exSt with
             friendships := exSt.friendships.filter (fun g => !(g.id == "f1")) }, ()) ∧
    remove_friend exSt "u2" "u1" =
      .ok ({ exSt with
             friendships := exSt.friendships.filter (fun g => !(g.id == "f1")) }, ()) ∧
    (⟨"f1", "u1", "u2", "accepted"⟩ : Friendship) ∉
      exSt.friendships.filter (fun g => !(g.id == "f1")) ∧
    (∀ g ∈ exSt.friendships, g ≠ ⟨"f1", "u1", "u2", "accepted"⟩ →
      g ∈ exSt.friendships.filter (fun g2 => !(g2.id == "f1"))) ∧
    (pairRows exStNoFriends "u1" "u2" = [] →
      remove_friend exStNoFriends "u1" "u2" =
        .error { status := 404, detail := "Friendship not found" } ∧
      storeAfter exStNoFriends (remove_friend exStNoFriends "u1" "u2") = exStNoFriends)) :=
  remove_friend_symmetric exSt exStNoFriends "u1" "u2" ⟨"f1", "u1", "u2", "accepted"⟩
    (by decide) (by decide) (by decide)

/-- A list element fetched with an in-bounds index and a default is a member. -/
theorem getD_mem_of_lt (l : List Char) (n : Nat) (d : Char) (h : n < l.length) :
    l.getD n d ∈ l := by
  rw [List.getD_eq_getElem l d h]
  exact List.getElem_mem h

/-- Every generated candidate is 6 characters long. -/
theorem codeAt_length (pick : Nat → Nat → Nat) (i : Nat) :
    (codeAt pick i).length = 6 := by
  simp [codeAt, String.length]

/-- Every character of a generated candidate is from the alphabet. -/
theorem codeAt_mem (pick : Nat → Nat → Nat) (i : Nat) :
    ∀ ch ∈ (codeAt pick i).data, ch ∈ inviteChars := by
  intro ch hch
  simp only [codeAt, List.mem_map] at hch
  obtain ⟨j, _, rfl⟩ := hch
  apply getD_mem_of_lt
  apply Nat.mod_lt
  decide

/-- Any code the retry loop returns is a drawn candidate that is absent from
the probed invite-code list. -/
theorem genLoop_ok_props (existing : List String) (pick : Nat → Nat → Nat) :
    ∀ (fuel i : Nat) (code : String), genLoop existing pick i fuel = .ok code →
      (∃ j, code = codeAt pick j) ∧ code ∉ existing := by
  intro fuel
  induction fuel with
  | zero => intro i code h; simp [genLoop] at h
  | succ n ih =>
    intro i code h
    by_cases hc : existing.contains (codeAt pick i) = true
    · simp only [genLoop, hc, if_true] at h
      exact ih (i + 1) code h
    · simp only [genLoop, hc, if_false, Bool.false_eq_true] at h
      injection h with h2
      subst h2
      refine ⟨⟨i, rfl⟩, ?_⟩
      simpa using hc

/-- C6: every invite code the generator returns is exactly 6 characters long,
each character an uppercase letter or digit with 0, O, I, 1 excluded, and —
because the probe queries all challenge rows — distinct from the invite_code
of every existing active challenge. -/
theorem invite_code_generation_props (st : Store) (pick : Nat → Nat → Nat)
    (n : Nat) (code : String)
    (h : generate_unique_invite_code st pick n = .ok code) :
    code.length = 6 ∧
    (∀ ch ∈ code.data, ch ∈ "ABCDEFGHJKLMNPQRSTUVWXYZ23456789".data) ∧
    (∀ chal ∈ st.challenges, chal.status = "active" → chal.invite_code ≠ code) := by
  have h2 : genLoop (st.challenges.map (fun ch => ch.invite_code)) pick 0 n =
      .ok code := h
  obtain ⟨⟨j, hj⟩, hnot⟩ :=
    genLoop_ok_props (st.challenges.map (fun ch => ch.invite_code)) pick n 0 code h2
  subst hj
  refine ⟨codeAt_length pick j, ?_, ?_⟩
  · intro ch hch
    have h2 := codeAt_mem pick j ch hch
    have hsub : ∀ ch2 ∈ inviteChars,
        ch2 ∈ "ABCDEFGHJKLMNPQRSTUVWXYZ23456789".data := by decide
    exact hsub ch h2
  · intro chal hchal _ heq
    exact hnot (heq ▸ List.mem_map_of_mem _ hchal)

theorem invite_code_generation_props_witness :
    ("AAAAAA".length = 6 ∧
    (∀ ch ∈ "AAAAAA".data, ch ∈ "ABCDEFGHJKLMNPQRSTUVWXYZ23456789".data) ∧
    (∀ chal ∈ exSt.challenges, chal.status = "active" → chal.invite_code ≠ "AAAAAA")) :=
  invite_code_generation_props exSt (fun _ _ => 0) 10 "AAAAAA" rfl
